import Mathlib

/-!
Verification of the HomeAdvisor scraping pipeline (scraper.py, captcha_solver.py).

Shallow embedding: browser/network interactions are supplied as explicit
environments (selector query results, service responses, append outcomes);
the control flow, string processing and state updates are translated
directly from the Python source.
-/

/-- A business record as built by `extract_business_info_from_card` in
scraper.py: the dict with keys business_name, star_rating, num_reviews,
address, website, phone, email, profile_url (all strings, empty = missing). -/
structure Business where
  business_name : String
  star_rating : String
  num_reviews : String
  address : String
  website : String
  phone : String
  email : String
  profile_url : String
deriving DecidableEq, Repr

/-- `unique_id = profile_url if profile_url else business_name`
(scrape_listings_from_page, scraper.py): the identity of a record. -/
def uniqueId (b : Business) : String :=
  if b.profile_url ≠ "" then b.profile_url else b.business_name

/-! ## Phone normalization

The normalizer appears inline in `find_phone_on_website` (scraper.py
lines 1282-1291) and `get_data_from_profile_page` (lines 1531-1543):
`phone = re.sub(r'[^\d]', '', match)`, then accept exactly 10 digits or
11 digits with a leading '1' (stripped), formatted `(NNN) NNN-NNNN`. -/

/-- `re.sub(r'[^\d]', '', s)`: the digit characters of `s`, in order. -/
def stripNonDigits (s : String) : List Char :=
  s.data.filter Char.isDigit

/-- `f"({phone[:3]}) {phone[3:6]}-{phone[6:]}"` on the digit list, written
as one character sequence. -/
def formatPhone (ds : List Char) : String :=
  String.mk ('(' :: ds.take 3 ++ ')' :: ' ' :: (ds.drop 3).take 3
    ++ '-' :: ds.drop 6)

/-- The inline phone normalization of scraper.py: strip non-digits, accept
10 digits or 11 digits led by '1' (stripped), else reject (`none`). -/
def normalize_phone (s : String) : Option String :=
  let ds := stripNonDigits s
  if ds.length = 10 then some (formatPhone ds)
  else if ds.length = 11 ∧ ds.head? = some '1' then some (formatPhone ds.tail)
  else none

/-- Checks that a string has the exact shape `(NNN) NNN-NNNN`. -/
def isPhoneShape (r : String) : Bool :=
  match r.data with
  | '(' :: a :: b :: c :: ')' :: ' ' :: d :: e :: f :: '-' :: g :: h :: i :: j :: [] =>
      [a, b, c, d, e, f, g, h, i, j].all Char.isDigit
  | _ => false

/-! ## Page-count detection (`detect_total_pages`, scraper.py lines 294-381)

The summary pattern is `re.search(r'(?:Showing\s+)?\d+-\d+\s+of\s+(\d+)', t,
re.IGNORECASE)`; the captured group is unaffected by the optional prefix, so
the matcher below searches for `\d+-\d+\s+of\s+(\d+)` (leftmost match; the
greedy quantifiers cannot backtrack usefully here because each `\d+`/`\s+`
is followed by a character outside its class). -/

/-- Numeric value of a digit string (`int(...)`). -/
def digitsVal (ds : List Char) : Nat :=
  ds.foldl (fun a c => a * 10 + (c.toNat - 48)) 0

/-- Python `str.strip()`: drop leading and trailing whitespace. -/
def pyStrip (s : String) : String :=
  String.mk (((s.data.dropWhile Char.isWhitespace).reverse.dropWhile
    Char.isWhitespace).reverse)

/-- Python `str.lower()` (ASCII case folding). -/
def pyLower (s : String) : String :=
  String.mk (s.data.map Char.toLower)

/-- `ceil(z / 10)` on naturals, as the claims state it. -/
def ceilDiv10 (z : Nat) : Nat := (z + 9) / 10

/-- Try a matcher at every start position, leftmost success wins
(`re.search` semantics). -/
def searchAux {α : Type} (f : List Char → Option α) : List Char → Option α
  | [] => f []
  | c :: t =>
    match f (c :: t) with
    | some v => some v
    | none => searchAux f t

/-- Match `\d+-\d+\s+of\s+(\d+)` (case-insensitive `of`) anchored at the
start of `cs`, returning the captured total. -/
def matchShowingAt (cs : List Char) : Option Nat :=
  let d1 := cs.takeWhile Char.isDigit
  if d1.isEmpty then none else
  match cs.drop d1.length with
  | '-' :: r2 =>
    let d2 := r2.takeWhile Char.isDigit
    if d2.isEmpty then none else
    let r3 := r2.drop d2.length
    let s1 := r3.takeWhile Char.isWhitespace
    if s1.isEmpty then none else
    (match r3.drop s1.length with
     | o :: f :: r5 =>
       if (o = 'o' ∨ o = 'O') ∧ (f = 'f' ∨ f = 'F') then
         let s2 := r5.takeWhile Char.isWhitespace
         if s2.isEmpty then none else
         let d3 := (r5.drop s2.length).takeWhile Char.isDigit
         if d3.isEmpty then none else some (digitsVal d3)
       else none
     | _ => none)
  | _ => none

/-- `re.search(r'(?:Showing\s+)?\d+-\d+\s+of\s+(\d+)', s, re.IGNORECASE)`,
returning the captured total item count. -/
def searchShowing (s : String) : Option Nat :=
  searchAux matchShowingAt s.data

/-- Match `page=(\d+)` anchored at the start of `cs` (case-sensitive). -/
def matchPageAt (cs : List Char) : Option Nat :=
  match cs with
  | 'p' :: 'a' :: 'g' :: 'e' :: '=' :: r =>
    let d := r.takeWhile Char.isDigit
    if d.isEmpty then none else some (digitsVal d)
  | _ => none

/-- `re.search(r'page=(\d+)', href)`. -/
def searchPageNum (s : String) : Option Nat :=
  searchAux matchPageAt s.data

/-- Python `str.isdigit()` (ASCII digits): non-empty and all digits. -/
def pyIsDigit (s : String) : Bool :=
  !s.isEmpty && s.data.all Char.isDigit

/-- Page number contributed by one pagination link `(href, text)`:
`page=(\d+)` in the href, else the stripped text if it is all digits. -/
def linkNum (l : String × String) : Option Nat :=
  match searchPageNum l.1 with
  | some n => some n
  | none =>
    let t := pyStrip l.2
    if pyIsDigit t then some (digitsVal t.data) else none

/-- First `showing X-Y of Z` total found among the summary element texts
(each stripped), then in the page source (`detect_total_pages` tries the
element-scoped lookup first, then the page-text regex). `elemTexts = none`
models the element query itself raising. -/
def summaryTotal (elemTexts : Option (List String)) (pageSource : String) : Option Nat :=
  let fromElems :=
    match elemTexts with
    | some ts => ts.foldl (fun acc t => match acc with
        | some z => some z
        | none => searchShowing (pyStrip t)) none
    | none => none
  match fromElems with
  | some z => some z
  | none => searchShowing pageSource

/-- `detect_total_pages` (scraper.py): summary total `Z` gives
`(Z + 9) // 10`; otherwise fold `max_page = max(max_page, n)` starting from
1 over the pagination links and return it when `> 1`; otherwise 1. -/
def detect_total_pages (elemTexts : Option (List String)) (pageSource : String)
    (links : List (String × String)) : Nat :=
  match summaryTotal elemTexts pageSource with
  | some z => (z + 9) / 10
  | none =>
    let maxPage := links.foldl (fun m l => match linkNum l with
      | some n => max m n
      | none => m) 1
    if 1 < maxPage then maxPage else 1

/-- Modelled from the spec's words for claim C6: the highest page number
found among the pagination links, when any link yields a number. -/
def claimLinkMax : List (String × String) → Option Nat
  | [] => none
  | l :: ls =>
    match linkNum l, claimLinkMax ls with
    | none, r => r
    | some n, none => some n
    | some n, some v => some (max n v)

/-- Modelled from the spec's words for claim C6, as stated: ceil(Z/10) when
a summary is found; else the highest page number found among pagination
links; else 1. -/
def claimSpecDetect (elemTexts : Option (List String)) (pageSource : String)
    (links : List (String × String)) : Nat :=
  match summaryTotal elemTexts pageSource with
  | some z => ceilDiv10 z
  | none =>
    match claimLinkMax links with
    | some v => v
    | none => 1

/-- The amended C6 statement: as `claimSpecDetect`, but the link fallback is
used only when the highest number found exceeds 1; otherwise 1. -/
def amendedSpecDetect (elemTexts : Option (List String)) (pageSource : String)
    (links : List (String × String)) : Nat :=
  match summaryTotal elemTexts pageSource with
  | some z => ceilDiv10 z
  | none =>
    match claimLinkMax links with
    | some v => if 1 < v then v else 1
    | none => 1

/-! ## Per-page deduplication (`scrape_listings_from_page`, scraper.py 751-773)

The page loop extracts a record per card and keeps it only when the card has
a name, its `unique_id` (profile URL, else name) is unseen, and its name is
unseen. The extraction per card is `extract_business_info_from_card`; here
the loop is embedded over the list of already-extracted records. -/

/-- Accumulator of the card loop: `listings`, `seen_urls`, `seen_names`. -/
structure DedupState where
  listings : List Business
  seenIds : List String
  seenNames : List String

/-- One iteration of the card loop in `scrape_listings_from_page`. -/
def dedupeStep (st : DedupState) (card : Business) : DedupState :=
  if card.business_name ≠ "" then
    let uid := uniqueId card
    if uid ∉ st.seenIds ∧ card.business_name ∉ st.seenNames then
      ⟨st.listings ++ [card], st.seenIds ++ [uid],
        st.seenNames ++ [card.business_name]⟩
    else st
  else st

/-- The listing list returned by `scrape_listings_from_page`, as a function
of the records extracted from the page's cards in order. -/
def scrape_listings_from_page (cards : List Business) : List Business :=
  (cards.foldl dedupeStep ⟨[], [], []⟩).listings

/-! ## Sheet writer (`write_to_sheet`, scraper.py 1697-1735)

`append_rows` outcomes are an oracle from attempt index to success. -/

/-- The sheet row built for one record: `[business_name, star_rating,
num_reviews, address, website, phone, email]`. -/
def toRow (b : Business) : List String :=
  [b.business_name, b.star_rating, b.num_reviews, b.address, b.website,
    b.phone, b.email]

/-- Observable outcome of one `write_to_sheet` call: number of
`append_rows` attempts, the sleeps performed (seconds, in order), the rows
persisted by a successful append, and whether the final error was re-raised. -/
structure WriteOutcome where
  attempts : Nat
  sleeps : List Nat
  stored : List (List String)
  raised : Bool
deriving DecidableEq, Repr

/-- The retry loop of `write_to_sheet`: `for attempt in range(max_retries)`
with `retry_delay` starting at 2 and doubling after each failed non-final
attempt; the final failure re-raises. `remaining` is the number of attempts
left (source: `max_retries = 3`). -/
def retryLoop (oracle : Nat → Bool) (attempt remaining delay : Nat)
    (rows : List (List String)) : WriteOutcome :=
  match remaining with
  | 0 => ⟨0, [], [], false⟩
  | r + 1 =>
    if oracle attempt then ⟨1, [], rows, false⟩
    else if r = 0 then ⟨1, [], [], true⟩
    else
      let o := retryLoop oracle (attempt + 1) r (delay * 2) rows
      ⟨o.attempts + 1, delay :: o.sleeps, o.stored, o.raised⟩

/-- `write_to_sheet(businesses)`: immediate return on an empty batch,
otherwise up to 3 append attempts with backoff 2 s then 4 s. -/
def write_to_sheet (businesses : List Business) (oracle : Nat → Bool) :
    WriteOutcome :=
  if businesses.isEmpty then ⟨0, [], [], false⟩
  else retryLoop oracle 0 3 2 (businesses.map toRow)

/-! ## Pagination driver (`scrape_all_pages`, scraper.py 1737-1855)

`pages page` is the listing list obtained for page `page` (after the
in-source extraction retry); `enrich` is the per-record enrichment.
Sheet appends are modelled as always succeeding; each `write_to_sheet`
call's batch is recorded in `log`. -/

/-- Run state of `scrape_all_pages`: `all_businesses`, the batches handed
to `write_to_sheet` in order, the `empty_pages_count`, and the pages
visited. -/
structure RunState where
  all : List Business
  log : List (List Business)
  emptyPages : Nat
  visited : List Nat
deriving Repr

/-- Python `l[-n:]`: the last `n` elements. -/
def lastN {α : Type} (n : Nat) (l : List α) : List α :=
  l.drop (l.length - n)

/-- Per-record body of the page loop: append the enriched record to
`all_businesses` and hand `all_businesses[-10:]` to the writer whenever
`len(all_businesses) % 10 == 0`. -/
def processBusiness (enrich : Business → Business) (st : RunState)
    (b : Business) : RunState :=
  let all := st.all ++ [enrich b]
  if all.length % 10 = 0 then
    { st with all := all, log := st.log ++ [lastN 10 all] }
  else { st with all := all }

/-- The page loop of `scrape_all_pages` over `range(start, total + 1)`;
`fuel` is the number of pages left in the range. An empty listing list
increments `empty_pages_count` and continues; a non-empty page whose
records all lack `profile_url` flushes `all_businesses` (when non-empty)
and breaks; otherwise every record is processed and
`all_businesses[-(len % 10):]` is written when `len % 10 != 0`. -/
def pageLoop (pages : Nat → List Business) (enrich : Business → Business) :
    Nat → Nat → RunState → RunState
  | _, 0, st => st
  | page, fuel + 1, st =>
    let st := { st with visited := st.visited ++ [page] }
    let listings := pages page
    if listings.isEmpty then
      pageLoop pages enrich (page + 1) fuel
        { st with emptyPages := st.emptyPages + 1 }
    else if listings.all (fun b => b.profile_url = "") then
      if st.all.isEmpty then st else { st with log := st.log ++ [st.all] }
    else
      let st := listings.foldl (processBusiness enrich) st
      let st :=
        if st.all.length % 10 ≠ 0 then
          { st with log := st.log ++ [lastN (st.all.length % 10) st.all] }
        else st
      pageLoop pages enrich (page + 1) fuel st

/-- `scrape_all_pages(total_pages, start_page)`: run the page loop, then
perform the final `write_to_sheet(all_businesses)` when any records were
collected. -/
def scrape_all_pages (pages : Nat → List Business)
    (enrich : Business → Business) (total start : Nat) : RunState :=
  let st := pageLoop pages enrich start (total + 1 - start) ⟨[], [], 0, []⟩
  if st.all.isEmpty then st else { st with log := st.log ++ [st.all] }

/-! ## CAPTCHA solver (`captcha_solver.py`)

`solve_cloudflare_turnstile` / `solve_recaptcha_v2`: one `requests.post`
submission, then a poll loop `while time.time() - start_time < max_wait`
with `time.sleep(5)` at the top of each iteration and `max_wait = 120`.
Network time other than the sleeps is idealized to zero, so the loop polls
at elapsed times 5, 10, ..., 120 and exits once elapsed reaches 120.
`Except.error` models a network-level exception from `requests`. -/

/-- A 2Captcha JSON response: `status` and `request` fields. -/
structure SubmitResp where
  status : Nat
  request : String
deriving DecidableEq, Repr

/-- Outcome of one poll (`GET /res.php`): solved token (`status == 1`),
`CAPCHA_NOT_READY`, or any other non-success response. -/
inductive PollResp where
  | solved (tok : String)
  | notReady
  | failed
deriving DecidableEq, Repr

/-- The poll loop body. Returns the try-block result (`Except.error` =
exception escaping the loop) and the elapsed times at which polls were
issued. `fuel` bounds the iterations (24 suffices from elapsed 0). -/
def pollLoop (oracle : Nat → Except Unit PollResp) :
    Nat → Nat → Except Unit (Option String) × List Nat
  | 0, _ => (.ok none, [])
  | fuel + 1, elapsed =>
    if elapsed < 120 then
      match oracle (elapsed + 5) with
      | .error u => (.error u, [elapsed + 5])
      | .ok (.solved tok) => (.ok (some tok), [elapsed + 5])
      | .ok .notReady =>
        let (r, ts) := pollLoop oracle fuel (elapsed + 5)
        (r, (elapsed + 5) :: ts)
      | .ok .failed => (.ok none, [elapsed + 5])
    else (.ok none, [])

/-- The `try:` body shared by `solve_cloudflare_turnstile` and
`solve_recaptcha_v2`: submit once; a non-success submission status returns
`None` with no retry; otherwise poll. Returns (try-block result, number of
submission requests issued, poll times). -/
def solveBody (submit : Except Unit SubmitResp)
    (oracle : Nat → Except Unit PollResp) :
    Except Unit (Option String) × Nat × List Nat :=
  match submit with
  | .error u => (.error u, 1, [])
  | .ok r =>
    if r.status = 1 then
      let (res, ts) := pollLoop oracle 24 0
      (res, 1, ts)
    else (.ok none, 1, [])

/-- `solve_cloudflare_turnstile`: disabled solver returns `None` without
any request; otherwise run the try-body, converting any exception to
`None` (`except Exception: return None`). -/
def solve_cloudflare_turnstile (enabled : Bool)
    (submit : Except Unit SubmitResp)
    (oracle : Nat → Except Unit PollResp) : Option String :=
  if enabled then
    match (solveBody submit oracle).1 with
    | .error _ => none
    | .ok r => r
  else none

/-- `solve_recaptcha_v2` is textually identical control flow (only the
submission payload differs, which lives outside this model). -/
def solve_recaptcha_v2 (enabled : Bool) (submit : Except Unit SubmitResp)
    (oracle : Nat → Except Unit PollResp) : Option String :=
  if enabled then
    match (solveBody submit oracle).1 with
    | .error _ => none
    | .ok r => r
  else none

/-- Oracle for a token that becomes available at elapsed time `T`:
`CAPCHA_NOT_READY` before, the solved token from `T` on. -/
def availOracle (T : Nat) (tok : String) : Nat → Except Unit PollResp :=
  fun t => .ok (if T ≤ t then .solved tok else .notReady)

/-! ## Card extraction (`extract_business_info_from_card`, scraper.py 826-1142)

Each selector lookup is an environment field: `none` models the lookup
raising (NoSuchElement etc.), `some t` the found element's effective text
or attribute value. The dict starts with all eight fields empty; `address`,
`website`, `phone` and `email` are never assigned in this function. -/

/-- Substring containment (`pat in s` in Python), via an explicit
prefix check at every position. -/
def hasPrefixCL : List Char → List Char → Bool
  | [], _ => true
  | _ :: _, [] => false
  | p :: ps, c :: cs => p == c && hasPrefixCL ps cs

/-- Auxiliary scan for `strContains`. -/
def containsAux (pat : List Char) : List Char → Bool
  | [] => hasPrefixCL pat []
  | c :: t => hasPrefixCL pat (c :: t) || containsAux pat t

/-- Python `pat in s`. -/
def strContains (s pat : String) : Bool :=
  containsAux pat.data s.data

/-- Selector results for one listing card (plus the page-level JSON-LD
lookups used as profile-URL fallbacks). -/
structure CardEnv where
  nameDesktop : Option String
  nameMobile : Option String
  nameHeader : Option String
  nameLinkAria : Option String
  profileLinkHref : Option String
  fallbackHref : Option String
  jsonLdUrl1 : Option String
  jsonLdUrl2 : Option String
  ratingDesktop : Option String
  ratingMobile : Option String
  ratingPlain : Option String
  ratingAria : Option String
  cardText : String
  reviewsDesktop : Option String
  reviewsMobile : Option String
  reviewsPlain : Option String

/-- Last-resort name from a profile link's aria-label:
`re.search(r'^([^(]+)', aria)` then `.strip()`; no assignment when the
label is empty or starts with `(`. -/
def ariaNameOf (aria : String) : String :=
  let pre := aria.data.takeWhile (fun c => c ≠ '(')
  if pre.isEmpty then "" else pyStrip (String.mk pre)

/-- Name cascade: desktop heading, mobile heading, header-class heading,
aria-label of the profile link. -/
def nameFromCard (ce : CardEnv) : String :=
  match ce.nameDesktop with
  | some t => pyStrip t
  | none =>
    match ce.nameMobile with
    | some t => pyStrip t
    | none =>
      match ce.nameHeader with
      | some t => pyStrip t
      | none =>
        match ce.nameLinkAria with
        | some aria => ariaNameOf aria
        | none => ""

/-- Relative hrefs are absolutized against `https://www.homeadvisor.com`. -/
def normalizeUrl (href : String) : String :=
  if href.startsWith "http" then href
  else if href.startsWith "/" then "https://www.homeadvisor.com" ++ href
  else "https://www.homeadvisor.com/" ++ href

/-- Profile-URL cascade: dedicated profile link; else a `rated`/`/pro/`
link (absolutized); else the first JSON-LD scan (whose helper only returns
`rated`/`/pro/` URLs, and only when a name was extracted). -/
def profileUrlFromCard (ce : CardEnv) (name : String) : String :=
  match ce.profileLinkHref with
  | some href => if href ≠ "" then href else ""
  | none =>
    match ce.fallbackHref with
    | some href =>
      if href ≠ "" ∧ (strContains href "rated" ∨ strContains href "/pro/") then
        normalizeUrl href
      else ""
    | none =>
      if name ≠ "" then
        match ce.jsonLdUrl1 with
        | some url =>
          if strContains url "rated" ∨ strContains url "/pro/" then
            normalizeUrl url
          else ""
        | none => ""
      else ""

/-- Second JSON-LD fallback, tried only while `profile_url` is still
empty and a name exists (this scan does not filter the URL). -/
def profileUrl2 (ce : CardEnv) (name url1 : String) : String :=
  if url1 = "" then
    if name ≠ "" then
      match ce.jsonLdUrl2 with
      | some url => normalizeUrl url
      | none => ""
    else ""
  else url1

/-- `re.search(r'Rating:\s*([\d.]+)', aria)`: the digits-and-dots run
after `Rating:` and optional whitespace, anchored at one position. -/
def matchRatingAt (cs : List Char) : Option String :=
  match cs with
  | 'R' :: 'a' :: 't' :: 'i' :: 'n' :: 'g' :: ':' :: r =>
    let r2 := r.dropWhile Char.isWhitespace
    let d := r2.takeWhile (fun c => c.isDigit ∨ c = '.')
    if d.isEmpty then none else some (String.mk d)
  | _ => none

/-- Star-rating cascade: desktop widget, mobile widget, unscoped widget,
aria-label regex. -/
def starRatingFromCard (ce : CardEnv) : String :=
  match ce.ratingDesktop with
  | some t => pyStrip t
  | none =>
    match ce.ratingMobile with
    | some t => pyStrip t
    | none =>
      match ce.ratingPlain with
      | some t => pyStrip t
      | none =>
        match ce.ratingAria with
        | some aria =>
          match searchAux matchRatingAt aria.data with
          | some v => v
          | none => ""
        | none => ""

/-- Python `s.strip('()')`. -/
def stripParens (s : String) : String :=
  let p := fun c => c = '(' ∨ c = ')'
  String.mk (((s.data.dropWhile p).reverse.dropWhile p).reverse)

/-- One review-count selector result: strip parentheses, keep only an
all-digit value. -/
def reviewsValue (t : String) : String :=
  if t ≠ "" then
    let u := stripParens t
    if u ≠ "" ∧ u.data.all Char.isDigit then u else ""
  else ""

/-- Review-count logic: a literal `no reviews yet` in the card text
short-circuits to `"0"`; otherwise the desktop/mobile/unscoped cascade. -/
def numReviewsFromCard (ce : CardEnv) : String :=
  if strContains (pyLower ce.cardText) "no reviews yet" then "0"
  else
    match ce.reviewsDesktop with
    | some t => reviewsValue t
    | none =>
      match ce.reviewsMobile with
      | some t => reviewsValue t
      | none =>
        match ce.reviewsPlain with
        | some t => reviewsValue t
        | none => ""

/-- `extract_business_info_from_card`: assemble the record; `address`,
`website`, `phone`, `email` stay at their initial empty value. -/
def extract_business_info_from_card (ce : CardEnv) : Business :=
  let name := nameFromCard ce
  let url1 := profileUrlFromCard ce name
  { business_name := name
    star_rating := starRatingFromCard ce
    num_reviews := numReviewsFromCard ce
    address := ""
    website := ""
    phone := ""
    email := ""
    profile_url := profileUrl2 ce name url1 }

/-! ## Enrichment (`enrich_business_data`, scraper.py 1635-1695)

The profile page data and the auxiliary lookups are environment inputs;
`get_data_from_profile_page` never raises (it catches internally and
returns its partial dict), and the lookup helpers return `None` on any
internal failure. -/

/-- The dict returned by `get_data_from_profile_page`. -/
structure ProfileData where
  website : String
  phone : String
  address : String
  star_rating : String
  num_reviews : String

/-- Environment of one `enrich_business_data` call. -/
structure EnrichEnv where
  searchProfile : Option String
  profileData : ProfileData
  phoneOnWebsite : Option String
  googlePhone : Option String
  emailOnWebsite : Option String

/-- Merge of the profile-page dict into the record (scraper.py 1659-1669):
`website`/`phone`/`address` are assigned whenever the profile value is
non-empty; `star_rating`/`num_reviews` only when missing on the record. -/
def mergeProfile (pd : ProfileData) (b : Business) : Business :=
  { b with
    website := if pd.website ≠ "" then pd.website else b.website
    phone := if pd.phone ≠ "" then pd.phone else b.phone
    address := if pd.address ≠ "" then pd.address else b.address
    star_rating :=
      if b.star_rating = "" ∧ pd.star_rating ≠ "" then pd.star_rating
      else b.star_rating
    num_reviews :=
      if b.num_reviews = "" ∧ pd.num_reviews ≠ "" then pd.num_reviews
      else b.num_reviews }

/-- Tail of `enrich_business_data` (scraper.py 1674-1694): website-based
phone lookup with Google fallback, then website-based email lookup. The
local `website` is read once, before any phone assignment. -/
def enrichTail (env : EnrichEnv) (b : Business) : Business :=
  let website := b.website
  let b :=
    if website ≠ "" ∧ b.phone = "" then
      match env.phoneOnWebsite with
      | some p => { b with phone := p }
      | none =>
        if b.business_name ≠ "" ∧ b.address ≠ "" then
          match env.googlePhone with
          | some p => { b with phone := p }
          | none => b
        else b
    else b
  if website ≠ "" then
    match env.emailOnWebsite with
    | some e => { b with email := e }
    | none => b
  else b

/-- `enrich_business_data`: find a profile URL when missing (returning the
record unchanged when the search fails), visit the profile page when a URL
is known, then run the website/Google phone and email fallbacks. -/
def enrich_business_data (env : EnrichEnv) (b : Business) : Business :=
  if b.profile_url = "" then
    if b.business_name ≠ "" then
      match env.searchProfile with
      | some url =>
        enrichTail env (mergeProfile env.profileData
          { b with profile_url := url })
      | none => b
    else enrichTail env b
  else enrichTail env (mergeProfile env.profileData b)

/-! # Theorems -/

/-! ## C10: empty batch is a no-op -/

/-- C10: `write_to_sheet` on an empty record list returns immediately:
no append attempt, no sleep, nothing stored, no error raised. -/
theorem write_to_sheet_empty_noop (oracle : Nat → Bool) :
    write_to_sheet [] oracle = ⟨0, [], [], false⟩ := rfl

/-! ## C2: phone normalization -/

theorem mem_stripNonDigits {s : String} {c : Char}
    (h : c ∈ stripNonDigits s) : c.isDigit = true :=
  (List.mem_filter.mp h).2

theorem filter_formatPhone (ds : List Char) (h : ∀ c ∈ ds, c.isDigit = true) :
    (formatPhone ds).data.filter Char.isDigit = ds := by
  have h1 : ∀ c ∈ ds.take 3, c.isDigit = true :=
    fun c hc => h c (List.take_subset _ _ hc)
  have h2 : ∀ c ∈ (ds.drop 3).take 3, c.isDigit = true :=
    fun c hc => h c (List.drop_subset _ _ (List.take_subset _ _ hc))
  have h3 : ∀ c ∈ ds.drop 6, c.isDigit = true :=
    fun c hc => h c (List.drop_subset _ _ hc)
  have c1 : Char.isDigit '(' = false := by decide
  have c2 : Char.isDigit ')' = false := by decide
  have c3 : Char.isDigit ' ' = false := by decide
  have c4 : Char.isDigit '-' = false := by decide
  have e1 : (ds.drop 3).drop 3 = ds.drop 6 := by
    rw [List.drop_drop]
  show ((('(' :: ds.take 3) ++ (')' :: ' ' :: (ds.drop 3).take 3)
      ++ ('-' :: ds.drop 6)).filter Char.isDigit) = ds
  simp only [List.filter_append, List.filter_cons, c1, c2, c3, c4,
    Bool.false_eq_true, if_false, List.filter_eq_self.mpr h1,
    List.filter_eq_self.mpr h2, List.filter_eq_self.mpr h3]
  rw [List.append_assoc, ← e1, List.take_append_drop, List.take_append_drop]

theorem isPhoneShape_formatPhone (ds : List Char) (hlen : ds.length = 10)
    (h : ∀ c ∈ ds, c.isDigit = true) :
    isPhoneShape (formatPhone ds) = true := by
  rcases ds with _ | ⟨a, ds⟩
  · simp only [List.length_nil] at hlen
    omega
  rcases ds with _ | ⟨b, ds⟩
  · simp only [List.length_cons, List.length_nil] at hlen
    omega
  rcases ds with _ | ⟨c, ds⟩
  · simp only [List.length_cons, List.length_nil] at hlen
    omega
  rcases ds with _ | ⟨d, ds⟩
  · simp only [List.length_cons, List.length_nil] at hlen
    omega
  rcases ds with _ | ⟨e, ds⟩
  · simp only [List.length_cons, List.length_nil] at hlen
    omega
  rcases ds with _ | ⟨f, ds⟩
  · simp only [List.length_cons, List.length_nil] at hlen
    omega
  rcases ds with _ | ⟨g, ds⟩
  · simp only [List.length_cons, List.length_nil] at hlen
    omega
  rcases ds with _ | ⟨h0, ds⟩
  · simp only [List.length_cons, List.length_nil] at hlen
    omega
  rcases ds with _ | ⟨i, ds⟩
  · simp only [List.length_cons, List.length_nil] at hlen
    omega
  rcases ds with _ | ⟨j, ds⟩
  · simp only [List.length_cons, List.length_nil] at hlen
    omega
  rcases ds with _ | ⟨k, ds⟩
  · exact List.all_eq_true.mpr h
  · simp only [List.length_cons] at hlen
    omega

theorem normalize_phone_eq (s : String) :
    normalize_phone s =
      if (stripNonDigits s).length = 10 then
        some (formatPhone (stripNonDigits s))
      else if (stripNonDigits s).length = 11 ∧
          (stripNonDigits s).head? = some '1' then
        some (formatPhone (stripNonDigits s).tail)
      else none := rfl

theorem normalize_phone_format (ds : List Char) (hlen : ds.length = 10)
    (h : ∀ c ∈ ds, c.isDigit = true) :
    normalize_phone (formatPhone ds) = some (formatPhone ds) := by
  have hs : stripNonDigits (formatPhone ds) = ds := filter_formatPhone ds h
  rw [normalize_phone_eq, hs, if_pos hlen]

/-- C2: the phone normalizer strips all non-digits; it accepts exactly the
inputs with 10 digits, or 11 digits with a leading '1' (stripped); every
accepted output has the shape `(NNN) NNN-NNNN`; every other digit count is
rejected (`none`, never a malformed value); and re-normalizing an accepted
output returns it unchanged (idempotence). -/
theorem normalize_phone_spec (s : String) :
    (∀ r, normalize_phone s = some r → isPhoneShape r = true) ∧
    (normalize_phone s = none ↔
      ¬((stripNonDigits s).length = 10 ∨
        ((stripNonDigits s).length = 11 ∧
          (stripNonDigits s).head? = some '1'))) ∧
    (∀ r, normalize_phone s = some r → normalize_phone r = some r) := by
  have hds : ∀ c ∈ stripNonDigits s, c.isDigit = true :=
    fun _ hc => mem_stripNonDigits hc
  have htl : (stripNonDigits s).length = 11 →
      ((stripNonDigits s).tail.length = 10 ∧
        ∀ c ∈ (stripNonDigits s).tail, c.isDigit = true) := by
    intro h11
    exact ⟨by rw [List.length_tail, h11],
      fun c hc => hds c (List.mem_of_mem_tail hc)⟩
  refine ⟨?_, ?_, ?_⟩
  · intro r hr
    rw [normalize_phone_eq] at hr
    by_cases h10 : (stripNonDigits s).length = 10
    · rw [if_pos h10] at hr
      cases hr
      exact isPhoneShape_formatPhone _ h10 hds
    · by_cases h11 : (stripNonDigits s).length = 11 ∧
          (stripNonDigits s).head? = some '1'
      · rw [if_neg h10, if_pos h11] at hr
        cases hr
        exact isPhoneShape_formatPhone _ (htl h11.1).1 (htl h11.1).2
      · rw [if_neg h10, if_neg h11] at hr
        exact Option.noConfusion hr
  · rw [normalize_phone_eq]
    by_cases h10 : (stripNonDigits s).length = 10
    · simp [h10]
    · by_cases h11 : (stripNonDigits s).length = 11 ∧
          (stripNonDigits s).head? = some '1'
      · simp [h10, h11]
      · simp only [if_neg h10, if_neg h11]
        simp [h10, h11]
  · intro r hr
    rw [normalize_phone_eq] at hr
    by_cases h10 : (stripNonDigits s).length = 10
    · rw [if_pos h10] at hr
      cases hr
      exact normalize_phone_format _ h10 hds
    · by_cases h11 : (stripNonDigits s).length = 11 ∧
          (stripNonDigits s).head? = some '1'
      · rw [if_neg h10, if_pos h11] at hr
        cases hr
        exact normalize_phone_format _ (htl h11.1).1 (htl h11.1).2
      · rw [if_neg h10, if_neg h11] at hr
        exact Option.noConfusion hr

/-- Witness for C2 at a concrete accepted input. -/
theorem normalize_phone_spec_witness :
    isPhoneShape "(555) 123-4567" = true ∧
    normalize_phone "(555) 123-4567" = some "(555) 123-4567" :=
  ⟨(normalize_phone_spec "555-123-4567").1 "(555) 123-4567" (by decide),
   (normalize_phone_spec "555-123-4567").2.2 "(555) 123-4567" (by decide)⟩

/-! ## C3: sheet-write retry with backoff -/

theorem retryLoop_three (o : Nat → Bool) (rows : List (List String)) :
    retryLoop o 0 3 2 rows =
      if o 0 then ⟨1, [], rows, false⟩
      else if o 1 then ⟨2, [2], rows, false⟩
      else if o 2 then ⟨3, [2, 4], rows, false⟩
      else ⟨3, [2, 4], [], true⟩ := by
  cases h0 : o 0 <;> cases h1 : o 1 <;> cases h2 : o 2 <;>
    simp [retryLoop, h0, h1, h2]

/-- C3: on a non-empty batch, `write_to_sheet` makes at most 3 append
attempts; after a success no further attempt is made and the rows are
persisted exactly once; the sleeps are 2 s before the second attempt and
4 s before the third; after 3 failures the error is re-raised and nothing
is stored. The four oracle cases are exhaustive. -/
theorem write_to_sheet_retry (bs : List Business) (oracle : Nat → Bool)
    (h : bs ≠ []) :
    (write_to_sheet bs oracle).attempts ≤ 3 ∧
    (oracle 0 = true →
      write_to_sheet bs oracle = ⟨1, [], bs.map toRow, false⟩) ∧
    (oracle 0 = false → oracle 1 = true →
      write_to_sheet bs oracle = ⟨2, [2], bs.map toRow, false⟩) ∧
    (oracle 0 = false → oracle 1 = false → oracle 2 = true →
      write_to_sheet bs oracle = ⟨3, [2, 4], bs.map toRow, false⟩) ∧
    (oracle 0 = false → oracle 1 = false → oracle 2 = false →
      write_to_sheet bs oracle = ⟨3, [2, 4], [], true⟩) := by
  have hne : bs.isEmpty = false := by
    cases bs
    · exact absurd rfl h
    · rfl
  have hw : write_to_sheet bs oracle = retryLoop oracle 0 3 2 (bs.map toRow) := by
    rw [write_to_sheet, hne]
    rfl
  rw [hw, retryLoop_three]
  cases h0 : oracle 0 <;> cases h1 : oracle 1 <;> cases h2 : oracle 2 <;>
    simp [h0, h1, h2]

/-- Witness for C3: a batch whose first two appends fail and whose third
succeeds is attempted three times, sleeps 2 s then 4 s, and stores the rows
exactly once. -/
theorem write_to_sheet_retry_witness :
    write_to_sheet [⟨"A", "", "", "", "", "", "", "u"⟩] (fun i => i == 2)
      = ⟨3, [2, 4], [["A", "", "", "", "", "", ""]], false⟩ :=
  (write_to_sheet_retry [⟨"A", "", "", "", "", "", "", "u"⟩] (fun i => i == 2)
    (by decide)).2.2.2.1 rfl rfl rfl

/-! ## C7 and C8: CAPTCHA submission and polling -/

theorem pollLoop_times (oracle : Nat → Except Unit PollResp) :
    ∀ fuel elapsed, elapsed % 5 = 0 →
      ∀ t ∈ (pollLoop oracle fuel elapsed).2,
        t % 5 = 0 ∧ 5 ≤ t ∧ t ≤ 120 := by
  intro fuel
  induction fuel with
  | zero => intro elapsed _ t ht; simp [pollLoop] at ht
  | succ f ih =>
    intro elapsed h5 t ht
    rw [pollLoop] at ht
    by_cases hlt : elapsed < 120
    · rw [if_pos hlt] at ht
      have hb : elapsed + 5 ≤ 120 := by omega
      cases hor : oracle (elapsed + 5) with
      | error u => rw [hor] at ht; simp at ht; omega
      | ok r =>
        cases r with
        | solved tok => rw [hor] at ht; simp at ht; omega
        | notReady =>
          rw [hor] at ht
          simp at ht
          rcases ht with rfl | ht
          · omega
          · exact ih (elapsed + 5) (by omega) t ht
        | failed => rw [hor] at ht; simp at ht; omega
    · rw [if_neg hlt] at ht
      simp at ht

theorem pollLoop_avail_hit (T : Nat) (tok : String) (hT : T ≤ 120) :
    ∀ fuel elapsed, elapsed % 5 = 0 → elapsed < 120 →
      120 ≤ elapsed + 5 * fuel →
      (pollLoop (availOracle T tok) fuel elapsed).1 = .ok (some tok) := by
  intro fuel
  induction fuel with
  | zero => intro elapsed _ h1 h2; omega
  | succ f ih =>
    intro elapsed h5 hlt hcov
    rw [pollLoop, if_pos hlt]
    by_cases hTe : T ≤ elapsed + 5
    · simp [availOracle, hTe]
    · have : availOracle T tok (elapsed + 5) = .ok .notReady := by
        simp [availOracle, hTe]
      rw [this]
      have := ih (elapsed + 5) (by omega) (by omega) (by omega)
      simp [this]

theorem pollLoop_avail_miss (T : Nat) (tok : String) (hT : 120 < T) :
    ∀ fuel elapsed, elapsed % 5 = 0 →
      (pollLoop (availOracle T tok) fuel elapsed).1 = .ok none := by
  intro fuel
  induction fuel with
  | zero => intro elapsed _; rfl
  | succ f ih =>
    intro elapsed h5
    rw [pollLoop]
    by_cases hlt : elapsed < 120
    · rw [if_pos hlt]
      have hto : ¬ T ≤ elapsed + 5 := by omega
      have : availOracle T tok (elapsed + 5) = .ok .notReady := by
        simp [availOracle, hto]
      rw [this]
      have := ih (elapsed + 5) (by omega)
      simp [this]
    · rw [if_neg hlt]

theorem pollLoop_congr (o1 o2 : Nat → Except Unit PollResp)
    (h : ∀ t, t % 5 = 0 → 5 ≤ t → t ≤ 120 → o1 t = o2 t) :
    ∀ fuel elapsed, elapsed % 5 = 0 →
      pollLoop o1 fuel elapsed = pollLoop o2 fuel elapsed := by
  intro fuel
  induction fuel with
  | zero => intro elapsed _; rfl
  | succ f ih =>
    intro elapsed h5
    rw [pollLoop, pollLoop]
    by_cases hlt : elapsed < 120
    · rw [if_pos hlt, if_pos hlt]
      have he : o1 (elapsed + 5) = o2 (elapsed + 5) :=
        h (elapsed + 5) (by omega) (by omega) (by omega)
      rw [← he]
      cases ho : o1 (elapsed + 5) with
      | error u => rfl
      | ok r =>
        cases r with
        | solved tok => rfl
        | notReady => rw [ih (elapsed + 5) (by omega)]
        | failed => rfl
    · rw [if_neg hlt, if_neg hlt]

/-- C7: the solver's poll loop issues polls only at the fixed 5 s grid
under the hard 120 s ceiling; which token it returns depends only on the
responses at those times; `CAPCHA_NOT_READY` responses are not failures
(polling continues past them), so a token that becomes available by 100 s
is returned, while a token only available after the 120 s ceiling (e.g. at
121 s) is never used and the call fails (`none`). -/
theorem solve_turnstile_polling (oracle o2 : Nat → Except Unit PollResp)
    (T : Nat) (tok : String) :
    (∀ t ∈ (solveBody (.ok ⟨1, "id"⟩) oracle).2.2,
      t % 5 = 0 ∧ 5 ≤ t ∧ t ≤ 120) ∧
    ((∀ t, t % 5 = 0 → 5 ≤ t → t ≤ 120 → oracle t = o2 t) →
      solve_cloudflare_turnstile true (.ok ⟨1, "id"⟩) oracle =
        solve_cloudflare_turnstile true (.ok ⟨1, "id"⟩) o2) ∧
    (T ≤ 100 →
      solve_cloudflare_turnstile true (.ok ⟨1, "id"⟩) (availOracle T tok)
        = some tok) ∧
    (120 < T →
      solve_cloudflare_turnstile true (.ok ⟨1, "id"⟩) (availOracle T tok)
        = none) := by
  have hbody : ∀ o : Nat → Except Unit PollResp,
      solveBody (.ok ⟨1, "id"⟩) o = ((pollLoop o 24 0).1, 1, (pollLoop o 24 0).2) := by
    intro o
    simp [solveBody]
  refine ⟨?_, ?_, ?_, ?_⟩
  · intro t ht
    rw [hbody] at ht
    exact pollLoop_times oracle 24 0 rfl t ht
  · intro hagree
    simp only [solve_cloudflare_turnstile, hbody]
    rw [pollLoop_congr oracle o2 hagree 24 0 rfl]
  · intro hT
    simp only [solve_cloudflare_turnstile, hbody]
    rw [pollLoop_avail_hit T tok (by omega) 24 0 rfl (by omega) (by omega)]
    rfl
  · intro hT
    simp only [solve_cloudflare_turnstile, hbody]
    rw [pollLoop_avail_miss T tok hT 24 0 rfl]
    rfl

/-- Witness for C7: a token available from 100 s is returned; one only
available from 121 s yields failure. -/
theorem solve_turnstile_polling_witness :
    solve_cloudflare_turnstile true (.ok ⟨1, "id"⟩) (availOracle 100 "tk")
      = some "tk" ∧
    solve_cloudflare_turnstile true (.ok ⟨1, "id"⟩) (availOracle 121 "tk")
      = none :=
  ⟨(solve_turnstile_polling (availOracle 100 "tk") (availOracle 100 "tk")
      100 "tk").2.2.1 (by omega),
   (solve_turnstile_polling (availOracle 121 "tk") (availOracle 121 "tk")
      121 "tk").2.2.2 (by omega)⟩

/-- C8: every call performs exactly one submission request (so a
non-success submission status is never followed by a second submission:
it ends the attempt at once with no polls and a `none` result, for both
`solve_cloudflare_turnstile` and `solve_recaptcha_v2`); and whenever a
network-level exception escapes the try-body, the caller receives `none`
rather than the exception. -/
theorem solve_one_submission_and_catch (submit : Except Unit SubmitResp)
    (oracle : Nat → Except Unit PollResp) (enabled : Bool) :
    (solveBody submit oracle).2.1 = 1 ∧
    (∀ r, submit = .ok r → r.status ≠ 1 →
      solve_cloudflare_turnstile true submit oracle = none ∧
      solve_recaptcha_v2 true submit oracle = none ∧
      (solveBody submit oracle).2.2 = []) ∧
    (∀ u, (solveBody submit oracle).1 = .error u →
      solve_cloudflare_turnstile enabled submit oracle = none ∧
      solve_recaptcha_v2 enabled submit oracle = none) := by
  refine ⟨?_, ?_, ?_⟩
  · cases submit with
    | error u => rfl
    | ok r =>
      by_cases hst : r.status = 1 <;>
        simp [solveBody, hst]
  · intro r hr hst
    subst hr
    refine ⟨?_, ?_, ?_⟩ <;>
      simp [solve_cloudflare_turnstile, solve_recaptcha_v2, solveBody, hst]
  · intro u hu
    cases enabled with
    | false => exact ⟨rfl, rfl⟩
    | true =>
      constructor <;>
        simp [solve_cloudflare_turnstile, solve_recaptcha_v2, hu]

/-- Witness for C8: a submission answered with status 0 gives `none` from
both solvers with no poll issued, and a network exception during
submission gives `none`. -/
theorem solve_one_submission_and_catch_witness :
    (solve_cloudflare_turnstile true (.ok ⟨0, "ERROR_KEY"⟩)
        (availOracle 5 "tk") = none ∧
      solve_recaptcha_v2 true (.ok ⟨0, "ERROR_KEY"⟩)
        (availOracle 5 "tk") = none ∧
      (solveBody (.ok ⟨0, "ERROR_KEY"⟩) (availOracle 5 "tk")).2.2 = []) ∧
    solve_cloudflare_turnstile true (.error ()) (availOracle 5 "tk") = none :=
  ⟨(solve_one_submission_and_catch (.ok ⟨0, "ERROR_KEY"⟩)
      (availOracle 5 "tk") true).2.1 ⟨0, "ERROR_KEY"⟩ rfl (by decide),
   ((solve_one_submission_and_catch (.error ())
      (availOracle 5 "tk") true).2.2 () rfl).1⟩

/-! ## C4 and C5: per-page deduplication -/

theorem dedupe_invariants (cards : List Business) :
    ∀ st : DedupState,
      st.seenIds = st.listings.map uniqueId →
      st.seenNames = st.listings.map Business.business_name →
      (st.listings.map uniqueId).Nodup →
      ((cards.foldl dedupeStep st).seenIds
          = ((cards.foldl dedupeStep st).listings).map uniqueId ∧
        (cards.foldl dedupeStep st).seenNames
          = ((cards.foldl dedupeStep st).listings).map Business.business_name ∧
        (((cards.foldl dedupeStep st).listings).map uniqueId).Nodup) := by
  induction cards with
  | nil => intro st h1 h2 h3; exact ⟨h1, h2, h3⟩
  | cons card rest ih =>
    intro st h1 h2 h3
    rw [List.foldl_cons]
    by_cases hn : card.business_name ≠ ""
    · by_cases hg : uniqueId card ∉ st.seenIds ∧
          card.business_name ∉ st.seenNames
      · have hstep : dedupeStep st card =
            ⟨st.listings ++ [card], st.seenIds ++ [uniqueId card],
              st.seenNames ++ [card.business_name]⟩ := by
          simp [dedupeStep, hn, hg.1, hg.2]
        rw [hstep]
        apply ih
        · simp [h1]
        · simp [h2]
        · rw [List.map_append]
          refine List.Nodup.append h3 (List.nodup_singleton _) ?_
          intro x hx hx'
          simp only [List.map_cons, List.map_nil, List.mem_singleton] at hx'
          subst hx'
          exact hg.1 (h1 ▸ hx)
      · have hstep : dedupeStep st card = st := by
          simp only [dedupeStep]
          rw [if_pos hn, if_neg hg]
        rw [hstep]
        exact ih st h1 h2 h3
    · have hstep : dedupeStep st card = st := by
        simp only [dedupeStep]
        rw [if_neg hn]
      rw [hstep]
      exact ih st h1 h2 h3

theorem dedupe_appends (cards : List Business) :
    ∀ st : DedupState, ∃ l,
      (cards.foldl dedupeStep st).listings = st.listings ++ l ∧
        l.Sublist cards := by
  induction cards with
  | nil => intro st; exact ⟨[], by simp, List.nil_sublist _⟩
  | cons card rest ih =>
    intro st
    rw [List.foldl_cons]
    by_cases hn : card.business_name ≠ ""
    · by_cases hg : uniqueId card ∉ st.seenIds ∧
          card.business_name ∉ st.seenNames
      · have hstep : dedupeStep st card =
            ⟨st.listings ++ [card], st.seenIds ++ [uniqueId card],
              st.seenNames ++ [card.business_name]⟩ := by
          simp [dedupeStep, hn, hg.1, hg.2]
        obtain ⟨l, hl, hsub⟩ := ih (dedupeStep st card)
        refine ⟨card :: l, ?_, List.Sublist.cons₂ _ hsub⟩
        rw [hl, hstep]
        simp
      · have hstep : dedupeStep st card = st := by
          simp only [dedupeStep]
          rw [if_pos hn, if_neg hg]
        obtain ⟨l, hl, hsub⟩ := ih st
        rw [hstep]
        exact ⟨l, hl, List.Sublist.cons _ hsub⟩
    · have hstep : dedupeStep st card = st := by
        simp only [dedupeStep]
        rw [if_neg hn]
      obtain ⟨l, hl, hsub⟩ := ih st
      rw [hstep]
      exact ⟨l, hl, List.Sublist.cons _ hsub⟩

theorem dedupe_mem_mono (cards : List Business) (st : DedupState)
    (b : Business) (hb : b ∈ st.listings) :
    b ∈ (cards.foldl dedupeStep st).listings := by
  obtain ⟨l, hl, _⟩ := dedupe_appends cards st
  rw [hl]
  exact List.mem_append_left _ hb

theorem dedupeStep_seen (st : DedupState) (p : Business) :
    ((dedupeStep st p).seenIds = st.seenIds ∨
      (dedupeStep st p).seenIds = st.seenIds ++ [uniqueId p]) ∧
    ((dedupeStep st p).seenNames = st.seenNames ∨
      (dedupeStep st p).seenNames = st.seenNames ++ [p.business_name]) := by
  by_cases hn : p.business_name ≠ ""
  · by_cases hg : uniqueId p ∉ st.seenIds ∧ p.business_name ∉ st.seenNames
    · have hstep : dedupeStep st p =
          ⟨st.listings ++ [p], st.seenIds ++ [uniqueId p],
            st.seenNames ++ [p.business_name]⟩ := by
        simp [dedupeStep, hn, hg.1, hg.2]
      rw [hstep]
      exact ⟨Or.inr rfl, Or.inr rfl⟩
    · have hstep : dedupeStep st p = st := by
        simp only [dedupeStep]
        rw [if_pos hn, if_neg hg]
      rw [hstep]
      exact ⟨Or.inl rfl, Or.inl rfl⟩
  · have hstep : dedupeStep st p = st := by
      simp only [dedupeStep]
      rw [if_neg hn]
    rw [hstep]
    exact ⟨Or.inl rfl, Or.inl rfl⟩

theorem dedupe_first_accept (pre : List Business) :
    ∀ (st : DedupState) (c : Business) (post : List Business),
      c.business_name ≠ "" →
      uniqueId c ∉ st.seenIds →
      c.business_name ∉ st.seenNames →
      (∀ p ∈ pre, uniqueId p ≠ uniqueId c ∧
        p.business_name ≠ c.business_name) →
      c ∈ ((pre ++ c :: post).foldl dedupeStep st).listings := by
  induction pre with
  | nil =>
    intro st c post hn hid hname _
    rw [List.nil_append, List.foldl_cons]
    have hstep : dedupeStep st c =
        ⟨st.listings ++ [c], st.seenIds ++ [uniqueId c],
          st.seenNames ++ [c.business_name]⟩ := by
      simp [dedupeStep, hn, hid, hname]
    apply dedupe_mem_mono
    rw [hstep]
    simp
  | cons p pre ih =>
    intro st c post hn hid hname hpre
    rw [List.cons_append, List.foldl_cons]
    have hp := hpre p (List.mem_cons_self _ _)
    apply ih
    · exact hn
    · rcases (dedupeStep_seen st p).1 with h | h <;> rw [h]
      · exact hid
      · intro hmem
        rcases List.mem_append.mp hmem with hmem | hmem
        · exact hid hmem
        · exact hp.1 (List.mem_singleton.mp hmem).symm
    · rcases (dedupeStep_seen st p).2 with h | h <;> rw [h]
      · exact hname
      · intro hmem
        rcases List.mem_append.mp hmem with hmem | hmem
        · exact hname hmem
        · exact hp.2 (List.mem_singleton.mp hmem).symm
    · exact fun q hq => hpre q (List.mem_cons_of_mem _ hq)

/-- C5 (amended): within one page, the returned listing list never
contains two records with equal identity (profile URL when present, else
name); it is a subsequence of the extracted cards; and a named card none
of whose predecessors shares its identity or its name is emitted. Of two
cards with the same profile URL at most one survives, and it is the
first-encountered one only when no name collision suppressed that card —
the acceptance test requires both the identity and the name to be unseen,
so a name clash can drop the first card of the pair while its URL never
enters `seen_urls` (see the counterexample). -/
theorem scrape_listings_dedupe (cards : List Business) :
    ((scrape_listings_from_page cards).map uniqueId).Nodup ∧
    (scrape_listings_from_page cards).Sublist cards ∧
    (∀ pre c post, cards = pre ++ c :: post → c.business_name ≠ "" →
      (∀ p ∈ pre, uniqueId p ≠ uniqueId c ∧
        p.business_name ≠ c.business_name) →
      c ∈ scrape_listings_from_page cards) := by
  refine ⟨?_, ?_, ?_⟩
  · exact (dedupe_invariants cards ⟨[], [], []⟩ rfl rfl (by simp)).2.2
  · obtain ⟨l, hl, hsub⟩ := dedupe_appends cards ⟨[], [], []⟩
    rw [scrape_listings_from_page, hl]
    simpa using hsub
  · intro pre c post hcards hn hpre
    rw [scrape_listings_from_page, hcards]
    exact dedupe_first_accept pre ⟨[], [], []⟩ c post hn (by simp) (by simp)
      hpre

/-- Witness for C5: two cards with the same profile URL collapse to the
first one when no predecessor shares its identity or name. -/
theorem scrape_listings_dedupe_witness :
    ((scrape_listings_from_page
        [⟨"A", "", "", "", "", "", "", "u"⟩,
         ⟨"B", "", "", "", "", "", "", "u"⟩]).map uniqueId).Nodup ∧
    ⟨"A", "", "", "", "", "", "", "u"⟩ ∈ scrape_listings_from_page
        [⟨"A", "", "", "", "", "", "", "u"⟩,
         ⟨"B", "", "", "", "", "", "", "u"⟩] :=
  ⟨(scrape_listings_dedupe _).1,
   (scrape_listings_dedupe _).2.2 [] ⟨"A", "", "", "", "", "", "", "u"⟩
     [⟨"B", "", "", "", "", "", "", "u"⟩] rfl (by decide)
     (by intro p hp; simp at hp)⟩

/-- Counterexample for C5 as stated: on cards (name N, url u1),
(name N, url u), (name M, url u) the second and third share
`profile_url = "u"`, yet the page loop emits the later card (M, u) of
that pair: (N, u) is rejected for its name collision with the first card,
so its URL never enters `seen_urls`. "Only the first-encountered card is
emitted" therefore fails on the code. -/
theorem dedupe_first_wins_counterexample :
    (⟨"N", "", "", "", "", "", "", "u"⟩ : Business).profile_url
      = (⟨"M", "", "", "", "", "", "", "u"⟩ : Business).profile_url ∧
    scrape_listings_from_page
        [⟨"N", "", "", "", "", "", "", "u1"⟩,
         ⟨"N", "", "", "", "", "", "", "u"⟩,
         ⟨"M", "", "", "", "", "", "", "u"⟩]
      = [⟨"N", "", "", "", "", "", "", "u1"⟩,
         ⟨"M", "", "", "", "", "", "", "u"⟩] ∧
    (⟨"N", "", "", "", "", "", "", "u"⟩ : Business) ∉
      scrape_listings_from_page
        [⟨"N", "", "", "", "", "", "", "u1"⟩,
         ⟨"N", "", "", "", "", "", "", "u"⟩,
         ⟨"M", "", "", "", "", "", "", "u"⟩] ∧
    (⟨"M", "", "", "", "", "", "", "u"⟩ : Business) ∈
      scrape_listings_from_page
        [⟨"N", "", "", "", "", "", "", "u1"⟩,
         ⟨"N", "", "", "", "", "", "", "u"⟩,
         ⟨"M", "", "", "", "", "", "", "u"⟩] := by
  decide

/-- C4 (amended): the uniqueness invariant holds within each single page's
extraction: `scrape_listings_from_page` never returns two records sharing
an identity. Across pages it fails (see the counterexample). -/
theorem per_page_identity_nodup (cards : List Business) :
    ((scrape_listings_from_page cards).map uniqueId).Nodup :=
  (dedupe_invariants cards ⟨[], [], []⟩ rfl rfl (by simp)).2.2

/-- Counterexample for C4 as stated: a run over two pages that each serve
the same card emits that record (same `profile_url`, hence same identity)
twice in `all_businesses`. -/
theorem cross_page_duplicate_counterexample :
    ¬ (((scrape_all_pages
        (fun n => if n ≤ 2 then [⟨"A", "", "", "", "", "", "", "u"⟩] else [])
        (fun b => b) 2 1).all.map uniqueId).Nodup) := by
  decide

/-! ## C1: stop condition and flush behavior -/

/-- C1 (evaluation at the failing input): with page 1 serving one record
`r1` carrying a profile URL and page 2 serving only records without one,
`scrape_all_pages 5 1` does stop after page 2 (pages 3-5 are never
visited), but `r1` is handed to the sheet writer three times: by the
page-1 end-of-page flush, by the whole-buffer flush on the stop path, and
by the whole-buffer flush after the loop — not exactly once as claimed. -/
theorem stop_flush_duplicates_eval :
    (scrape_all_pages
        (fun n => if n = 1 then [⟨"R1", "", "", "", "", "", "", "u1"⟩]
          else if n = 2 then [⟨"R2", "", "", "", "", "", "", ""⟩] else [])
        (fun b => b) 5 1).visited = [1, 2] ∧
    (scrape_all_pages
        (fun n => if n = 1 then [⟨"R1", "", "", "", "", "", "", "u1"⟩]
          else if n = 2 then [⟨"R2", "", "", "", "", "", "", ""⟩] else [])
        (fun b => b) 5 1).log =
      [[⟨"R1", "", "", "", "", "", "", "u1"⟩],
       [⟨"R1", "", "", "", "", "", "", "u1"⟩],
       [⟨"R1", "", "", "", "", "", "", "u1"⟩]] := by
  decide

/-! ## C6: page-count detection -/

theorem linkFold_eq_claim (links : List (String × String)) :
    ∀ m : Nat,
      links.foldl (fun m l => match linkNum l with
        | some n => max m n
        | none => m) m
      = match claimLinkMax links with
        | none => m
        | some v => max m v := by
  induction links with
  | nil => intro m; rfl
  | cons l ls ih =>
    intro m
    rw [List.foldl_cons]
    cases hl : linkNum l with
    | none =>
      simp only [hl, claimLinkMax]
      exact ih m
    | some n =>
      cases hc : claimLinkMax ls with
      | none =>
        have h := ih (max m n)
        rw [hc] at h
        simp only [hl, claimLinkMax, hc]
        exact h
      | some v =>
        have h := ih (max m n)
        rw [hc] at h
        simp only [hl, claimLinkMax, hc]
        rw [h]
        dsimp only
        exact Nat.max_assoc m n v

/-- C6 (amended): `detect_total_pages` computes exactly the amended
specification — ceil(Z/10) on a found summary (in particular 105 for
`Showing 1-10 of 1050`); with no summary, the highest page number found
among pagination links when it exceeds 1; otherwise 1. `ceilDiv10` really
is the ceiling of division by 10. -/
theorem detect_total_pages_spec :
    (∀ elemTexts pageSource links,
      detect_total_pages elemTexts pageSource links
        = amendedSpecDetect elemTexts pageSource links) ∧
    (∀ z : Nat, z ≤ 10 * ceilDiv10 z ∧ 10 * ceilDiv10 z < z + 10) ∧
    detect_total_pages (some ["Showing 1-10 of 1050"]) "" [] = 105 := by
  refine ⟨?_, ?_, by decide⟩
  · intro elemTexts pageSource links
    cases hsum : summaryTotal elemTexts pageSource with
    | some z =>
      simp [detect_total_pages, amendedSpecDetect, hsum, ceilDiv10]
    | none =>
      simp only [detect_total_pages, amendedSpecDetect, hsum]
      rw [linkFold_eq_claim links 1]
      cases hc : claimLinkMax links with
      | none => simp
      | some v =>
        simp only []
        rcases Nat.lt_or_ge 1 v with h | h
        · rw [Nat.max_eq_right (Nat.le_of_lt h), if_pos h]
        · rw [Nat.max_eq_left h, if_neg (by omega), if_neg (by omega)]
  · intro z
    constructor <;> (unfold ceilDiv10; omega)

/-- Counterexample for C6 as stated: with no summary and a single
pagination link `page=0`, the highest page number found among the links is
0, but `detect_total_pages` returns 1. -/
theorem detect_link_fallback_counterexample :
    claimSpecDetect none "" [("a?page=0", "")] = 0 ∧
    detect_total_pages none "" [("a?page=0", "")] = 1 ∧
    detect_total_pages none "" [("a?page=0", "")]
      ≠ claimSpecDetect none "" [("a?page=0", "")] :=
  ⟨by decide, by decide, by decide⟩

/-! ## C9: enrichment only adds to empty fields -/

theorem enrichTail_frame (env : EnrichEnv) (b : Business) :
    (enrichTail env b).business_name = b.business_name ∧
    (enrichTail env b).star_rating = b.star_rating ∧
    (enrichTail env b).num_reviews = b.num_reviews ∧
    (enrichTail env b).address = b.address ∧
    (enrichTail env b).website = b.website ∧
    (enrichTail env b).profile_url = b.profile_url := by
  simp only [enrichTail]
  repeat' split
  all_goals exact ⟨rfl, rfl, rfl, rfl, rfl, rfl⟩

theorem mergeProfile_frame (pd : ProfileData) (b : Business) :
    (mergeProfile pd b).business_name = b.business_name ∧
    (mergeProfile pd b).email = b.email ∧
    (mergeProfile pd b).profile_url = b.profile_url ∧
    (b.star_rating ≠ "" → (mergeProfile pd b).star_rating = b.star_rating) ∧
    (b.num_reviews ≠ "" → (mergeProfile pd b).num_reviews = b.num_reviews) := by
  refine ⟨rfl, rfl, rfl, ?_, ?_⟩ <;> intro h <;> simp [mergeProfile, h]

/-- C9: records built from a listing card always leave `address`,
`website`, `phone`, `email` empty, so the only fields a record can carry
into enrichment are name, rating, review count and profile URL — and
`enrich_business_data` never overwrites any of those once populated (for
`star_rating`/`num_reviews` this is exactly the listing-page-precedence
rule; profile-page values are merged only into empty ones). Hence
enrichment only adds values to empty fields. -/
theorem enrich_only_adds (ce : CardEnv) (env : EnrichEnv) (b : Business) :
    ((extract_business_info_from_card ce).address = "" ∧
     (extract_business_info_from_card ce).website = "" ∧
     (extract_business_info_from_card ce).phone = "" ∧
     (extract_business_info_from_card ce).email = "") ∧
    ((enrich_business_data env b).business_name = b.business_name) ∧
    (b.profile_url ≠ "" →
      (enrich_business_data env b).profile_url = b.profile_url) ∧
    (b.star_rating ≠ "" →
      (enrich_business_data env b).star_rating = b.star_rating) ∧
    (b.num_reviews ≠ "" →
      (enrich_business_data env b).num_reviews = b.num_reviews) := by
  refine ⟨⟨rfl, rfl, rfl, rfl⟩, ?_, ?_, ?_, ?_⟩
  · unfold enrich_business_data
    by_cases hpu : b.profile_url = ""
    · rw [if_pos hpu]
      by_cases hbn : b.business_name ≠ ""
      · rw [if_pos hbn]
        cases hsp : env.searchProfile with
        | some url =>
          rw [(enrichTail_frame env _).1, (mergeProfile_frame _ _).1]
        | none => rfl
      · rw [if_neg hbn]
        exact (enrichTail_frame env b).1
    · rw [if_neg hpu]
      rw [(enrichTail_frame env _).1, (mergeProfile_frame _ _).1]
  · intro h
    unfold enrich_business_data
    rw [if_neg h]
    rw [(enrichTail_frame env _).2.2.2.2.2, (mergeProfile_frame _ _).2.2.1]
  · intro h
    unfold enrich_business_data
    by_cases hpu : b.profile_url = ""
    · rw [if_pos hpu]
      by_cases hbn : b.business_name ≠ ""
      · rw [if_pos hbn]
        cases hsp : env.searchProfile with
        | some url =>
          rw [(enrichTail_frame env _).2.1]
          exact (mergeProfile_frame env.profileData
            { b with profile_url := url }).2.2.2.1 h
        | none => rfl
      · rw [if_neg hbn]
        exact (enrichTail_frame env b).2.1
    · rw [if_neg hpu, (enrichTail_frame env _).2.1,
        (mergeProfile_frame env.profileData _).2.2.2.1 h]
  · intro h
    unfold enrich_business_data
    by_cases hpu : b.profile_url = ""
    · rw [if_pos hpu]
      by_cases hbn : b.business_name ≠ ""
      · rw [if_pos hbn]
        cases hsp : env.searchProfile with
        | some url =>
          rw [(enrichTail_frame env _).2.2.1]
          exact (mergeProfile_frame env.profileData
            { b with profile_url := url }).2.2.2.2 h
        | none => rfl
      · rw [if_neg hbn]
        exact (enrichTail_frame env b).2.2.1
    · rw [if_neg hpu, (enrichTail_frame env _).2.2.1,
        (mergeProfile_frame env.profileData _).2.2.2.2 h]

/-- Witness for C9: a card record with a rating, review count and profile
URL keeps all three through enrichment even though the profile page
offers different values. -/
theorem enrich_only_adds_witness :
    (extract_business_info_from_card
        ⟨some "Biz", none, none, none, some "http://u", none, none, none,
          some "4.5", none, none, none, "", some "(7)", none,
          none⟩).star_rating ≠ "" ∧
    (enrich_business_data
        ⟨none, ⟨"http://site", "(111) 222-3333", "addr", "9.9", "42"⟩,
          none, none, none⟩
        (extract_business_info_from_card
          ⟨some "Biz", none, none, none, some "http://u", none, none, none,
            some "4.5", none, none, none, "", some "(7)", none,
            none⟩)).star_rating
      = (extract_business_info_from_card
          ⟨some "Biz", none, none, none, some "http://u", none, none, none,
            some "4.5", none, none, none, "", some "(7)", none,
            none⟩).star_rating :=
  ⟨by decide,
   (enrich_only_adds
      ⟨some "Biz", none, none, none, some "http://u", none, none, none,
        some "4.5", none, none, none, "", some "(7)", none, none⟩
      ⟨none, ⟨"http://site", "(111) 222-3333", "addr", "9.9", "42"⟩,
        none, none, none⟩
      (extract_business_info_from_card
        ⟨some "Biz", none, none, none, some "http://u", none, none, none,
          some "4.5", none, none, none, "", some "(7)", none,
          none⟩)).2.2.2.1 (by decide)⟩
